import Mathlib

/-!
Verification of the FishFeeder servo motion controller
(`src/app/servo.py`, with its configuration in `src/app/config.py` and the
request models in `src/app/models.py`).

The controller is shallowly embedded: Python floats become rationals,
the gpiozero `Servo` handle becomes an explicit `Handle` record, every
assignment to `servo.value` / `time.sleep` call becomes an element of an
event trace observed by the actuator driver, and Python exceptions become
an explicit error component of each operation's `Outcome`.

A detail of `config.py` matters throughout: the pydantic `Settings` class
(lines 12-21) declares only the fields `app_name`, `app_version`,
`app_description` and `servo_pin`.  The constants `pwm_frequency`,
`min_duty_cycle`, `max_duty_cycle`, `default_speed`, `min_speed`,
`max_speed`, `compartment_initial_position`, `compartment_increment` and
`compartment_delay` (lines 24-38) sit at module level, outside the class
body.  `servo.py` nevertheless reads them as attributes of the `settings`
instance (`settings.default_speed`, `settings.compartment_initial_position`,
and so on), and a pydantic model raises `AttributeError` for an attribute
that is not one of its fields.  The embedding models this attribute lookup
explicitly with `settingsGetattr`.
-/

namespace FishFeeder

/-- Signals observed by the actuator driver, in order.  `write v` is an
assignment `self.servo.value = v` with a numeric value, `detach` is the
assignment `self.servo.value = None`, `sleepFor s` is `time.sleep(s)`,
`acquireHandle pin` is the `Servo(...)` construction in `initialize`
(servo.py lines 44-49), and `closeHandle` is `self.servo.close()`. -/
inductive Event where
  | acquireHandle (pin : ℤ)
  | write (v : ℚ)
  | detach
  | sleepFor (s : ℚ)
  | closeHandle
  deriving DecidableEq, Repr

/-- The gpiozero `Servo` object, reduced to the one bit the controller can
observe: whether `close()` has been called on it.  The driver itself is an
external collaborator (spec section 1 non-goals), so writes to an open
handle are recorded, not interpreted. -/
structure Handle where
  closed : Bool
  deriving DecidableEq, Repr

/-- Python exceptions the embedded code can raise, plus the two error kinds
named by the spec's error taxonomy (section 7).  `attributeError` is
Python's `AttributeError` (raised by `None.value`, or by reading a
non-field attribute of the pydantic `settings` object); `deviceClosed` is
gpiozero's closed-device error on a write to a closed `Servo`.
`notInitialized` and `validationError` model the spec's
`NotInitializedError` and `ValidationError`; no code under `src/app`
raises either. -/
inductive Err where
  | attributeError
  | deviceClosed
  | notInitialized
  | validationError
  deriving DecidableEq, Repr

/-- Names that `servo.py` and `models.py` read as attributes of the
`settings` object (beyond `servo_pin`, which is a genuine field). -/
inductive AttrName where
  | default_speed
  | min_speed
  | max_speed
  | compartment_initial_position
  | compartment_increment
  | compartment_delay
  deriving DecidableEq, Repr

/-- Attribute lookup on the `settings` object (`Settings()`, config.py
line 41).  The `Settings` pydantic model declares only `app_name`,
`app_version`, `app_description` and `servo_pin` (config.py lines 12-21);
every name in `AttrName` is a module-level variable of config.py (lines
24-38), not a field, so the lookup raises `AttributeError`. -/
def settingsGetattr : AttrName → Except Err ℚ :=
  fun _ => .error .attributeError

/-- Module-level constant `min_duty_cycle` of config.py (line 27): 2.5. -/
def min_duty_cycle : ℚ := 5 / 2

/-- Module-level constant `max_duty_cycle` of config.py (line 28): 12.5. -/
def max_duty_cycle : ℚ := 25 / 2

/-- Module-level constant `compartment_increment` of config.py
(line 37): 1.3. -/
def compartment_increment : ℚ := 13 / 10

/-- Module-level constant `compartment_initial_position` of config.py
(line 36): 0.0. -/
def compartment_initial_position : ℚ := 0

/-- Module-level constant `compartment_delay` of config.py (line 38):
0.2. -/
def compartment_delay : ℚ := 1 / 5

/-- `ServoController` instance state (servo.py lines 18-29): the pin
number, the optional gpiozero handle `self.servo`, the advisory
`self.current_angle`, and `self._initialized`.  The `threading.Lock` has
no sequential content; `with self.lock` blocks are noted in comments. -/
structure ControllerState where
  servoPin : ℤ
  servo : Option Handle
  currentAngle : ℚ
  initializedFlag : Bool
  deriving DecidableEq, Repr

/-- Result of one controller operation: the driver-visible event trace it
emitted, the instance state after the call, and the exception it raised,
if any.  Python semantics: mutations made before an exception persist. -/
structure Outcome where
  trace : List Event
  state : ControllerState
  err : Option Err
  deriving DecidableEq, Repr

/-- `ServoController.__init__` (servo.py lines 18-29):
`self.servo_pin = servo_pin or settings.servo_pin` (Python `or`, so a
`None` or `0` argument falls back to the `servo_pin` field, which config.py
line 21 sets to 17), `self.servo = None`, `self.current_angle = 90.0`,
`self._initialized = False`. -/
def mkController (pin : Option ℤ) : ControllerState :=
  ⟨(match pin with
    | some p => if p = 0 then 17 else p
    | none => 17), none, 90, false⟩

/-- `ServoController.initialize` (servo.py lines 31-50): returns
immediately when `self._initialized`; otherwise constructs the `Servo`
handle on the configured pin and sets `self._initialized = True`.  (The
`PiGPIOFactory` try/except on lines 37-40 only selects a pin factory and
never escapes; handle construction is modelled as succeeding, the
hardware-unavailable case being a startup concern outside these claims.) -/
def initializeServo (st : ControllerState) : List Event × ControllerState :=
  if st.initializedFlag then ([], st)
  else ([Event.acquireHandle st.servoPin],
    ⟨st.servoPin, some ⟨false⟩, st.currentAngle, true⟩)

/-- `ServoController._angle_to_value` (servo.py lines 52-68):
`(angle - 90.0) / 90.0`. -/
def angle_to_value (angle : ℚ) : ℚ :=
  (angle - 90) / 90

/-- Body of `ServoController.set_angle` from `with self.lock:` on
(servo.py lines 81-86): compute `value = self._angle_to_value(angle)`,
assign `self.servo.value = value` (an `AttributeError` when `self.servo`
is `None`, a closed-device error when the handle has been closed),
`time.sleep(speed)`, then `self.current_angle = angle`.  No trailing
neutral write: line 85's comment records that gpiozero keeps the
position. -/
def setAngleLocked (st : ControllerState) (angle sp : ℚ) : Outcome :=
  match st.servo with
  | none => ⟨[], st, some .attributeError⟩
  | some h =>
    if h.closed then ⟨[], st, some .deviceClosed⟩
    else
      ⟨[Event.write (angle_to_value angle), Event.sleepFor sp],
        ⟨st.servoPin, st.servo, angle, st.initializedFlag⟩, none⟩

/-- `ServoController.set_angle` (servo.py lines 70-86).  Lines 78-79:
`if speed is None: speed = settings.default_speed`; `default_speed` is not
a `Settings` field, so the defaulted path raises `AttributeError` before
the lock is taken. -/
def set_angle (st : ControllerState) (angle : ℚ) (speed : Option ℚ) : Outcome :=
  match speed with
  | none =>
    match settingsGetattr .default_speed with
    | .error e => ⟨[], st, some e⟩
    | .ok sp => setAngleLocked st angle sp
  | some sp => setAngleLocked st angle sp

/-- Python `int()` truncation toward zero, applied to a rational. -/
def pyTrunc (q : ℚ) : ℤ :=
  if 0 ≤ q then ⌊q⌋ else -⌊-q⌋

/-- `steps = abs(int(degrees / 10))` (servo.py line 103). -/
def rotateSteps (degrees : ℚ) : ℕ :=
  (pyTrunc (degrees / 10)).natAbs

/-- `direction = 1 if degrees > 0 else -1` and
`angle = 90 + (direction * 45)` (servo.py lines 102 and 107). -/
def rotateAngle (degrees : ℚ) : ℚ :=
  90 + (if 0 < degrees then 1 else -1) * 45

/-- Body of `ServoController.rotate_degrees` from `with self.lock:` on
(servo.py lines 101-113): `steps` identical pulse iterations, each
assigning the converted value for the fixed overshoot angle and sleeping
`speed`, then one final neutral write `self.servo.value = 0`.  With no
live handle the first write (or, when `steps = 0`, the neutral write)
raises before anything is emitted. -/
def rotateLocked (st : ControllerState) (degrees sp : ℚ) : Outcome :=
  match st.servo with
  | none => ⟨[], st, some .attributeError⟩
  | some h =>
    if h.closed then ⟨[], st, some .deviceClosed⟩
    else
      ⟨(List.replicate (rotateSteps degrees)
          [Event.write (angle_to_value (rotateAngle degrees)), Event.sleepFor sp]).flatten
        ++ [Event.write 0], st, none⟩

/-- `ServoController.rotate_degrees` (servo.py lines 88-113), with the
same `settings.default_speed` behaviour as `set_angle` on the defaulted
path (lines 98-99). -/
def rotate_degrees (st : ControllerState) (degrees : ℚ) (speed : Option ℚ) : Outcome :=
  match speed with
  | none =>
    match settingsGetattr .default_speed with
    | .error e => ⟨[], st, some e⟩
    | .ok sp => rotateLocked st degrees sp
  | some sp => rotateLocked st degrees sp

/-- One iteration of the `spin_compartments` loop (servo.py lines
129-146), in source order: read `settings.compartment_initial_position`
and `settings.compartment_increment` (line 132-134), compute
`position` and `angle = min(180, max(0, (position / 12.5) * 180.0))`
(line 140), convert and assign `self.servo.value` (lines 141-142), sleep
`speed`, detach with `self.servo.value = None` (line 145), read
`settings.compartment_delay` and sleep it (line 146).  Returns the events
emitted before any exception, and the exception. -/
def spinIter (servo : Option Handle) (sp : ℚ) (i : ℕ) : List Event × Option Err :=
  match settingsGetattr .compartment_initial_position with
  | .error e => ([], some e)
  | .ok initPos =>
    match settingsGetattr .compartment_increment with
    | .error e => ([], some e)
    | .ok incr =>
      let position := initPos + incr * (i : ℚ)
      let angle := min 180 (max 0 (position / (25 / 2) * 180))
      match servo with
      | none => ([], some Err.attributeError)
      | some h =>
        if h.closed then ([], some Err.deviceClosed)
        else
          match settingsGetattr .compartment_delay with
          | .error e =>
            ([Event.write (angle_to_value angle), Event.sleepFor sp, Event.detach], some e)
          | .ok delay =>
            ([Event.write (angle_to_value angle), Event.sleepFor sp, Event.detach,
              Event.sleepFor delay], none)

/-- `for i in range(compartments)` (servo.py line 129): run the
iterations in order, stopping at the first exception and keeping the
events emitted so far. -/
def spinLoop (servo : Option Handle) (sp : ℚ) : List ℕ → List Event × Option Err
  | [] => ([], none)
  | i :: rest =>
    match spinIter servo sp i with
    | (evs, some e) => (evs, some e)
    | (evs, none) =>
      let tail := spinLoop servo sp rest
      (evs ++ tail.1, tail.2)

/-- Body of `ServoController.spin_compartments` from `with self.lock:` on
(servo.py lines 128-146).  No instance field is assigned anywhere in the
loop, so the state is returned unchanged. -/
def spinLocked (st : ControllerState) (count : ℕ) (sp : ℚ) : Outcome :=
  ⟨(spinLoop st.servo sp (List.range count)).1, st,
    (spinLoop st.servo sp (List.range count)).2⟩

/-- `ServoController.spin_compartments` (servo.py lines 115-146), with
the `settings.default_speed` behaviour on the defaulted path (lines
125-126). -/
def spin_compartments (st : ControllerState) (count : ℕ) (speed : Option ℚ) : Outcome :=
  match speed with
  | none =>
    match settingsGetattr .default_speed with
    | .error e => ⟨[], st, some e⟩
    | .ok sp => spinLocked st count sp
  | some sp => spinLocked st count sp

/-- `ServoController.reset` (servo.py lines 148-150):
`self.set_angle(90.0)` with `speed` left to default. -/
def reset (st : ControllerState) : Outcome :=
  set_angle st 90 none

/-- `ServoController.cleanup` (servo.py lines 152-156): when
`self._initialized and self.servo`, call `self.servo.close()` and clear
the flag; otherwise do nothing.  The `self.servo` reference is kept (only
closed), and `close()` on an already-closed gpiozero device is itself a
no-op, so this never raises. -/
def cleanup (st : ControllerState) : List Event × ControllerState :=
  if st.initializedFlag then
    match st.servo with
    | some _ =>
      ([Event.closeHandle], ⟨st.servoPin, some ⟨true⟩, st.currentAngle, false⟩)
    | none => ([], st)
  else ([], st)

/-- Modelled from the spec: no angle-to-duty conversion function exists
under `src` — config.py only declares the calibration constants
`min_duty_cycle = 2.5` and `max_duty_cycle = 12.5` (lines 26-28, with
comments naming them the 0-degree and 180-degree duty cycles), and
test.py only contains the inverse duty-to-angle heuristic.  The spec
(section 4.1) defines the duty-cycle conversion strategy as
`duty = min_duty + (angle / 180.0) * (max_duty - min_duty)`. -/
def duty_conversion (angle : ℚ) : ℚ :=
  min_duty_cycle + angle / 180 * (max_duty_cycle - min_duty_cycle)

/-- A controller with no live handle: before `initialize()` the `servo`
attribute is still `None`, and after `cleanup()` it refers to a closed
handle. -/
def handleUnavailable (st : ControllerState) : Prop :=
  st.servo = none ∨ st.servo = some ⟨true⟩

/-- Claim C2: for every angle in the interval from 0 to 180, the
normalized conversion `(angle - 90) / 90` lies between -1 and 1, is
strictly monotonically increasing in the angle, and maps 0 to -1, 90 to
0 and 180 to 1. -/
theorem normalized_conversion_spec :
    (∀ a : ℚ, 0 ≤ a → a ≤ 180 → -1 ≤ angle_to_value a ∧ angle_to_value a ≤ 1) ∧
    (∀ a b : ℚ, a < b → angle_to_value a < angle_to_value b) ∧
    angle_to_value 0 = -1 ∧ angle_to_value 90 = 0 ∧ angle_to_value 180 = 1 := by
  refine ⟨?_, ?_, by norm_num [angle_to_value], by norm_num [angle_to_value],
    by norm_num [angle_to_value]⟩
  · intro a h0 h180
    unfold angle_to_value
    constructor
    · rw [le_div_iff₀ (by norm_num : (0:ℚ) < 90)]
      linarith
    · rw [div_le_iff₀ (by norm_num : (0:ℚ) < 90)]
      linarith
  · intro a b hab
    unfold angle_to_value
    rw [div_eq_mul_inv, div_eq_mul_inv]
    exact mul_lt_mul_of_pos_right (by linarith) (by norm_num)

/-- Witness for claim C2 at the concrete angle 45. -/
theorem normalized_conversion_spec_witness :
    -1 ≤ angle_to_value 45 ∧ angle_to_value 45 ≤ 1 :=
  normalized_conversion_spec.1 45 (by norm_num) (by norm_num)

/-- Claim C9: the duty-cycle conversion (modelled from the spec, see
`duty_conversion`) stays within the configured bounds 2.5 and 12.5 on
angles from 0 to 180, is monotonically increasing, and maps 0 to the
minimum duty and 180 to the maximum duty. -/
theorem duty_conversion_spec :
    (∀ a : ℚ, 0 ≤ a → a ≤ 180 →
      min_duty_cycle ≤ duty_conversion a ∧ duty_conversion a ≤ max_duty_cycle) ∧
    (∀ a b : ℚ, a ≤ b → duty_conversion a ≤ duty_conversion b) ∧
    duty_conversion 0 = min_duty_cycle ∧ duty_conversion 180 = max_duty_cycle := by
  have key : ∀ a : ℚ, duty_conversion a = 5 / 2 + a * (1 / 18) := by
    intro a
    unfold duty_conversion min_duty_cycle max_duty_cycle
    ring
  refine ⟨?_, ?_, ?_, ?_⟩
  · intro a h0 h180
    rw [key]
    unfold min_duty_cycle max_duty_cycle
    constructor <;> nlinarith
  · intro a b hab
    rw [key, key]
    nlinarith
  · rw [key]
    unfold min_duty_cycle
    norm_num
  · rw [key]
    unfold max_duty_cycle
    norm_num

/-- Witness for claim C9 at the concrete angle 90. -/
theorem duty_conversion_spec_witness :
    min_duty_cycle ≤ duty_conversion 90 ∧ duty_conversion 90 ≤ max_duty_cycle :=
  duty_conversion_spec.1 90 (by norm_num) (by norm_num)

/-- Python's `int()` truncates toward zero, so the absolute value of
`int(q)` is the floor of the absolute value of `q`. -/
theorem pyTrunc_natAbs (q : ℚ) : (pyTrunc q).natAbs = (⌊|q|⌋).toNat := by
  unfold pyTrunc
  by_cases h : 0 ≤ q
  · rw [if_pos h, abs_of_nonneg h]
    have h2 : 0 ≤ ⌊q⌋ := Int.floor_nonneg.mpr h
    omega
  · rw [if_neg h, abs_of_neg (not_le.mp h)]
    have h2 : 0 ≤ ⌊-q⌋ := Int.floor_nonneg.mpr (by linarith [not_le.mp h])
    omega

/-- Claim C4: on a live handle, `rotate_degrees` with an explicit speed
writes exactly the floor of the absolute number of degrees divided by 10
pulses, each the converted value of angle 135 when the direction is
positive and 45 otherwise and each followed by sleeping the speed, then
writes the neutral value 0 exactly once; the state is unchanged. -/
theorem rotate_degrees_spec (st : ControllerState) (d sp : ℚ)
    (hs : st.servo = some ⟨false⟩) (h1 : -360 ≤ d) (h2 : d ≤ 360) :
    rotate_degrees st d (some sp) =
      ⟨(List.replicate (⌊|d| / 10⌋).toNat
          [Event.write (angle_to_value (if 0 < d then 135 else 45)),
            Event.sleepFor sp]).flatten
        ++ [Event.write 0], st, none⟩ := by
  have hsteps : rotateSteps d = (⌊|d| / 10⌋).toNat := by
    unfold rotateSteps
    rw [pyTrunc_natAbs]
    have h10 : |(10:ℚ)| = 10 := by norm_num
    rw [abs_div, h10]
  have hangle : rotateAngle d = if 0 < d then 135 else 45 := by
    unfold rotateAngle
    split <;> norm_num
  unfold rotate_degrees rotateLocked
  rw [hs, hsteps, hangle]
  simp

/-- Witness for claim C4: rotating by -25 degrees on a freshly
initialized controller. -/
theorem rotate_degrees_spec_witness :
    rotate_degrees ((initializeServo (mkController none)).2) (-25) (some (1/2)) =
      ⟨(List.replicate (⌊|(-25 : ℚ)| / 10⌋).toNat
          [Event.write (angle_to_value (if (0:ℚ) < -25 then 135 else 45)),
            Event.sleepFor (1/2)]).flatten
        ++ [Event.write 0], (initializeServo (mkController none)).2, none⟩ :=
  rotate_degrees_spec _ _ _ rfl (by norm_num) (by norm_num)

/-- Claim C3: on a live handle, `set_angle` with a valid angle and an
explicit valid speed emits exactly one driver write (the converted
value), then one sleep of the given speed — no trailing neutral write —
and sets the advisory current angle to exactly the requested angle. -/
theorem set_angle_spec (st : ControllerState) (angle sp : ℚ)
    (hs : st.servo = some ⟨false⟩) (h0 : 0 ≤ angle) (h180 : angle ≤ 180)
    (hsp1 : 1/10 ≤ sp) (hsp2 : sp ≤ 5) :
    set_angle st angle (some sp) =
      ⟨[Event.write (angle_to_value angle), Event.sleepFor sp],
        ⟨st.servoPin, st.servo, angle, st.initializedFlag⟩, none⟩ := by
  unfold set_angle setAngleLocked
  rw [hs]
  simp

/-- Witness for claim C3: setting angle 45 at speed one half on a freshly
initialized controller. -/
theorem set_angle_spec_witness :
    set_angle ((initializeServo (mkController none)).2) 45 (some (1/2)) =
      ⟨[Event.write (angle_to_value 45), Event.sleepFor (1/2)],
        ⟨17, some ⟨false⟩, 45, true⟩, none⟩ :=
  set_angle_spec _ 45 (1/2) rfl (by norm_num) (by norm_num) (by norm_num)
    (by norm_num)

/-- Claim C5 fails on the code: `spin_compartments(1, 0.1)` on a freshly
initialized controller raises `AttributeError` at
`settings.compartment_initial_position` (servo.py line 132) during the
first loop iteration — the compartment constants are module-level
variables of config.py, not `Settings` fields — so no (write, sleep,
detach, sleep) cycle is emitted at all. -/
theorem spin_compartments_settings_bug :
    spin_compartments ((initializeServo (mkController none)).2) 1 (some (1/10)) =
      ⟨[], (initializeServo (mkController none)).2, some Err.attributeError⟩ :=
  rfl

/-- Claim C6 fails on the code: `ServoController.set_angle` performs no
range check, so calling it with the out-of-range angle 200 (and speed one
half) on a freshly initialized controller raises no error; it emits a
driver write of the converted value 11/9 — which exceeds the legal
normalized bound 1 — sleeps, and even records 200 as the current
angle. -/
theorem set_angle_no_validation_bug :
    set_angle ((initializeServo (mkController none)).2) 200 (some (1/2)) =
      ⟨[Event.write (11/9), Event.sleepFor (1/2)],
        ⟨17, some ⟨false⟩, 200, true⟩, none⟩ ∧
    (1 : ℚ) < 11/9 := by
  constructor
  · have h : angle_to_value 200 = 11/9 := by
      unfold angle_to_value
      norm_num
    unfold set_angle setAngleLocked
    rw [show ((initializeServo (mkController none)).2).servo = some ⟨false⟩ from rfl]
    simp [h]
    exact ⟨rfl, rfl⟩
  · norm_num

/-- Claim C7 fails as stated: invoking `set_angle` after `cleanup()`
does fail with no driver write, but the error is gpiozero's closed-device
error, not a distinguishable `NotInitializedError` — no such error type
exists anywhere in the code. -/
theorem motion_after_cleanup_error_not_notInitialized :
    (set_angle ((cleanup ((initializeServo (mkController none)).2)).2) 90
        (some (1/2))).err = some Err.deviceClosed ∧
    some Err.deviceClosed ≠ some Err.notInitialized ∧
    (set_angle ((cleanup ((initializeServo (mkController none)).2)).2) 90
        (some (1/2))).trace = [] := by
  refine ⟨rfl, by simp, rfl⟩

/-- The first statement of every `spin_compartments` loop iteration is
the failing `settings.compartment_initial_position` lookup, so every
iteration aborts immediately with `AttributeError` and emits nothing. -/
theorem spinIter_eq (servo : Option Handle) (sp : ℚ) (i : ℕ) :
    spinIter servo sp i = ([], some Err.attributeError) :=
  rfl

/-- Claim C7, amended: every motion operation invoked on a controller
with no live handle — before `initialize()` the servo attribute is
`None`, after `cleanup()` it is a closed handle — fails with an error
(an attribute error or a closed-device error, never the spec's
`NotInitializedError`) and emits no driver event at all. -/
theorem motion_without_handle_fails (st : ControllerState)
    (h : handleUnavailable st) :
    (∀ angle speed, (set_angle st angle speed).err.isSome = true ∧
      (set_angle st angle speed).trace = []) ∧
    (∀ d speed, (rotate_degrees st d speed).err.isSome = true ∧
      (rotate_degrees st d speed).trace = []) ∧
    (∀ count speed, 1 ≤ count →
      (spin_compartments st count speed).err.isSome = true ∧
      (spin_compartments st count speed).trace = []) ∧
    ((reset st).err.isSome = true ∧ (reset st).trace = []) := by
  have hsa : ∀ angle sp, (setAngleLocked st angle sp).err.isSome = true ∧
      (setAngleLocked st angle sp).trace = [] := by
    intro angle sp
    rcases h with h | h <;> simp [setAngleLocked, h]
  have hrot : ∀ d sp, (rotateLocked st d sp).err.isSome = true ∧
      (rotateLocked st d sp).trace = [] := by
    intro d sp
    rcases h with h | h <;> simp [rotateLocked, h]
  have hspin : ∀ count sp, 1 ≤ count →
      (spinLocked st count sp).err.isSome = true ∧
      (spinLocked st count sp).trace = [] := by
    intro count sp hc
    obtain ⟨n, rfl⟩ : ∃ n, count = n + 1 := ⟨count - 1, by omega⟩
    simp [spinLocked, List.range_succ_eq_map, spinLoop, spinIter_eq]
  refine ⟨?_, ?_, ?_, ⟨rfl, rfl⟩⟩
  · intro angle speed
    cases speed with
    | none => exact ⟨rfl, rfl⟩
    | some sp => exact hsa angle sp
  · intro d speed
    cases speed with
    | none => exact ⟨rfl, rfl⟩
    | some sp => exact hrot d sp
  · intro count speed hc
    cases speed with
    | none => exact ⟨rfl, rfl⟩
    | some sp => exact hspin count sp hc

/-- Witness for the amended claim C7: `set_angle` on a never-initialized
controller fails and emits nothing. -/
theorem motion_without_handle_fails_witness :
    (set_angle (mkController none) 90 (some (1/2))).err.isSome = true ∧
    (set_angle (mkController none) 90 (some (1/2))).trace = [] :=
  (motion_without_handle_fails (mkController none) (Or.inl rfl)).1 90
    (some (1/2))

/-- Claim C8: `initialize()` called twice acquires the handle exactly
once, the second call being a state-preserving no-op; `cleanup()` on a
not-initialized controller — in particular on a fresh one, or called a
second consecutive time — is an error-free no-op. -/
theorem lifecycle_idempotent :
    (∀ pin, (initializeServo (mkController pin)).1 =
        [Event.acquireHandle (mkController pin).servoPin] ∧
      initializeServo (initializeServo (mkController pin)).2 =
        ([], (initializeServo (mkController pin)).2)) ∧
    (∀ st : ControllerState, st.initializedFlag = false →
      cleanup st = ([], st)) ∧
    (∀ st : ControllerState, cleanup (cleanup st).2 = ([], (cleanup st).2)) := by
  refine ⟨fun pin => ⟨rfl, rfl⟩, ?_, ?_⟩
  · intro st h
    simp [cleanup, h]
  · intro st
    by_cases hf : st.initializedFlag
    · cases hsv : st.servo with
      | none => simp [cleanup, hf, hsv]
      | some h => simp [cleanup, hf, hsv]
    · simp [cleanup, hf]

/-- Witness for claim C8: `cleanup()` before any `initialize()` is a
no-op, not an error. -/
theorem lifecycle_idempotent_witness :
    cleanup (mkController none) = ([], mkController none) :=
  lifecycle_idempotent.2.1 (mkController none) rfl

/-- Claim C10: `rotate_degrees` and `spin_compartments` never modify the
advisory current angle, whatever their inputs and whatever state the
controller is in; and `reset` is exactly a delegation to
`set_angle(90.0)` with the defaulted speed. -/
theorem frame_current_angle :
    (∀ st d speed,
      (rotate_degrees st d speed).state.currentAngle = st.currentAngle) ∧
    (∀ st count speed,
      (spin_compartments st count speed).state.currentAngle = st.currentAngle) ∧
    (∀ st : ControllerState, reset st = set_angle st 90 none) := by
  have hrl : ∀ st d sp, (rotateLocked st d sp).state = st := by
    intro st d sp
    unfold rotateLocked
    cases hsv : st.servo with
    | none => rfl
    | some h => cases hc : h.closed <;> simp [hsv, hc]
  refine ⟨?_, ?_, fun st => rfl⟩
  · intro st d speed
    cases speed with
    | none => rfl
    | some sp => rw [show rotate_degrees st d (some sp) = rotateLocked st d sp from rfl, hrl]
  · intro st count speed
    cases speed with
    | none => rfl
    | some sp => rfl

end FishFeeder
